import Mathlib

/-!
Verification of the wisdom-oss/watchdog gateway service watcher
(`src/service-watcher.go`) against its specification.

The program is a reconciliation loop: every tick it lists docker containers
carrying the `wisdom-oss.isService` label, classifies each one by run state
and health state, registers or removes it from the Kong API gateway, and then
runs a reverse "orphan reaping" pass that deletes gateway targets whose host
no longer corresponds to any container on the host.

The embedding below is a shallow, executable model of `main`'s tick body.
External collaborators (the docker client and the Kong admin client) are
modelled as environments of `Except`-valued responses; the tick body is a
pure function of those environments producing the sequence of gateway
mutations the Go code would perform.
-/

namespace Watchdog

/-- Go map lookup on the container label map: a missing key yields the zero
value `""` (as in `containerInformation.Config.Labels["…"]`). -/
def lookupLabel (labels : List (String × String)) (k : String) : String :=
  match labels.lookup k with
  | some v => v
  | none => ""

/-- `utils.MapHasKey`: key presence in the label map. -/
def MapHasKey (labels : List (String × String)) (k : String) : Bool :=
  (labels.lookup k).isSome

/-- `utils.ArrayContains`: membership of a string in a slice. -/
def ArrayContains (arr : List String) (x : String) : Bool :=
  arr.contains x

/-- `strconv.ParseBool` from the Go standard library, as called at line 82:
accepts exactly "1", "t", "T", "true", "TRUE", "True" as true and
"0", "f", "F", "false", "FALSE", "False" as false; anything else errors. -/
def ParseBool (s : String) : Except Unit Bool :=
  if s = "1" ∨ s = "t" ∨ s = "T" ∨ s = "true" ∨ s = "TRUE" ∨ s = "True" then
    Except.ok true
  else if s = "0" ∨ s = "f" ∨ s = "F" ∨ s = "false" ∨ s = "FALSE" ∨ s = "False" then
    Except.ok false
  else
    Except.error ()

/-- `structs.GatewayConfiguration`: the three label-derived fields. -/
structure GatewayConfiguration where
  ServiceName : String
  UpstreamName : String
  ServicePath : String
deriving DecidableEq, Repr

/-- Container health sub-state (`State.Health`, when a healthcheck exists). -/
structure HealthState where
  Status : String
deriving DecidableEq, Repr

/-- Container run state: status string plus optional health information
(`State.Health` is a nil-able pointer in the docker API). -/
structure ContainerState where
  Status : String
  Health : Option HealthState
deriving DecidableEq, Repr

/-- Container configuration as returned by inspection: hostname and labels. -/
structure ContainerConfig where
  Hostname : String
  Labels : List (String × String)
deriving DecidableEq, Repr

/-- Result of `ContainerInspect`: the metadata the watcher reads. -/
structure ContainerJSON where
  Config : ContainerConfig
  State : ContainerState
deriving DecidableEq, Repr

/-- An entry of the `ContainerList` result: only the ID is used. -/
structure ContainerSummary where
  ID : String
deriving DecidableEq, Repr

/-- A Kong upstream as used by the reverse search: only its ID is read. -/
structure Upstream where
  ID : String
deriving DecidableEq, Repr

/-- A Kong target: the `host:port` target string. -/
structure Target where
  Target : String
deriving DecidableEq, Repr

/-- A Kong plugin as read by the startup check: name and the (nil-able)
service and route bindings. -/
structure Plugin where
  Name : String
  Service : Option String
  Route : Option String
deriving DecidableEq, Repr

/-- Outcome of the per-container body (lines 71-126) for one container. -/
inductive ContainerOutcome where
  | inspectFailed (id : String)
  | skippedUnparsableMarker (id : String)
  | skippedNotService (id : String)
  | skippedIncompleteConfig (id : String)
  | registered (cfg : GatewayConfiguration) (info : ContainerJSON)
  | removed (cfg : GatewayConfiguration) (info : ContainerJSON)
deriving DecidableEq, Repr

/-- Whether an outcome mutates the gateway (a `RegisterContainer` or
`RemoveContainer` call); all skip outcomes only log. -/
def outcomeMutation : ContainerOutcome → Bool
  | .registered _ _ => true
  | .removed _ _ => true
  | _ => false

/-- Lines 103-106: the `GatewayConfiguration` is filled from the three
service labels by plain map lookups (missing keys give `""`). -/
def extractConfig (labels : List (String × String)) : GatewayConfiguration :=
  { ServiceName := lookupLabel labels "wisdom-oss.service.name"
    UpstreamName := lookupLabel labels "wisdom-oss.service.upstream-name"
    ServicePath := lookupLabel labels "wisdom-oss.service.path" }

/-- Lines 108-125: classification of an inspected container by run state and
health state, ending in a `RegisterContainer` or `RemoveContainer` call. -/
def classifyAction (cfg : GatewayConfiguration) (info : ContainerJSON) : ContainerOutcome :=
  if info.State.Status = "running" then
    match info.State.Health with
    | none => .registered cfg info
    | some h =>
      if h.Status = "unhealthy" then .removed cfg info
      else .registered cfg info
  else
    .removed cfg info

/-- The per-container body, lines 71-126 of `main`, for one container of the
filtered listing. `inspect` is `DockerClient.ContainerInspect`. -/
def processContainer (inspect : String → Except Unit ContainerJSON)
    (c : ContainerSummary) : ContainerOutcome :=
  match inspect c.ID with
  | .error _ => .inspectFailed c.ID
  | .ok info =>
    match ParseBool (lookupLabel info.Config.Labels "wisdom-oss.isService") with
    | .error _ => .skippedUnparsableMarker c.ID
    | .ok isService =>
      if !isService then .skippedNotService c.ID
      else
        -- Lines 92-101: `if err != nil { …label completeness check… }` where
        -- `err` is still the ParseBool error.  On this path that error is nil
        -- (the error case continued at line 87), so the branch holding the
        -- completeness check is unreachable; we keep it, guarded by the
        -- always-`none` error value, exactly as the source has it.
        let parseErr : Option Unit := none
        if parseErr.isSome then
          if !(MapHasKey info.Config.Labels "wisdom-oss.service.name" &&
               MapHasKey info.Config.Labels "wisdom-oss.service.upstream-name" &&
               MapHasKey info.Config.Labels "wisdom-oss.service.path") then
            .skippedIncompleteConfig c.ID
          else
            classifyAction (extractConfig info.Config.Labels) info
        else
          classifyAction (extractConfig info.Config.Labels) info

/-- The per-container loop, lines 70-126.  On an inspection error the Go code
executes `break` (line 78), which terminates the loop: the remaining
containers of the listing are not processed on this tick. -/
def processContainers (inspect : String → Except Unit ContainerJSON) :
    List ContainerSummary → List ContainerOutcome
  | [] => []
  | c :: rest =>
    match processContainer inspect c with
    | .inspectFailed i => [.inspectFailed i]
    | o => o :: processContainers inspect rest

/-- The docker side of the environment for one tick: the filtered listing
(line 56, `All: true` with the `wisdom-oss.isService` label filter), the
unfiltered listing (line 131, `All: true`, no filter), and inspection. -/
structure DockerEnv where
  ContainerListFiltered : Except Unit (List ContainerSummary)
  ContainerListAll : Except Unit (List ContainerSummary)
  ContainerInspect : String → Except Unit ContainerJSON

/-- The Kong side of the environment for one tick: the upstream listing and
the per-upstream target listing, both scoped by the "wisdom" tag
(lines 137-147). -/
structure KongEnv where
  Upstreams : Except Unit (List Upstream)
  Targets : String → Except Unit (List Target)

/-- Lines 133-135, one container of the hostname-building loop: the
inspection error is discarded (`info, _ :=` at line 133), leaving the
zero-valued `types.ContainerJSON`, whose `Config` field is a nil
`*container.Config` pointer; reading `info.Config.Hostname` at line 135 then
dereferences nil and the process panics.  `none` is that panic; `some hs`
is the completed hostname list. -/
def buildHostNames (inspect : String → Except Unit ContainerJSON) :
    List ContainerSummary → Option (List String)
  | [] => some []
  | c :: rest =>
    match inspect c.ID with
    | .error _ => none
    | .ok info =>
      match buildHostNames inspect rest with
      | none => none
      | some hs => some (info.Config.Hostname :: hs)

/-- Lines 131-136: the hostname set for the reverse search.  The listing
error is never checked (`containers, err :=` at line 131, `err` only
reassigned later), so a failed listing leaves the nil slice and an empty
(but completed) hostname list; a failed inspection of a listed container
crashes the process (`none`, see `buildHostNames`). -/
def containerHostNames (denv : DockerEnv) : Option (List String) :=
  buildHostNames denv.ContainerInspect (denv.ContainerListAll.toOption.getD [])

/-- The characters before the first `':'` of a character list. -/
def hostChars : List Char → List Char
  | [] => []
  | ch :: rest => if ch = ':' then [] else ch :: hostChars rest

/-- Lines 152-153: `strings.Split(*target.Target, ":")` and taking index 0 —
the host portion of a target string, i.e. everything before the first colon
(the whole string when it has no colon). -/
def hostPart (targetStr : String) : String :=
  String.mk (hostChars targetStr.data)

/-- Lines 137-161 of the reverse search, given a completed hostname list:
for every tagged upstream and every tagged target under it, delete the
target when its host portion is not among the hostnames.  A failed upstream
or target listing is logged and leaves the nil slice, so it contributes no
deletion.  The result is the list of `(upstream ID, target string)`
deletions issued. -/
def reapDeletions (hostNames : List String) (kenv : KongEnv) : List (String × String) :=
  let upstreams :=
    match kenv.Upstreams with
    | .error _ => []
    | .ok us => us
  upstreams.flatMap (fun u =>
    let targets :=
      match kenv.Targets u.ID with
      | .error _ => []
      | .ok ts => ts
    targets.filterMap (fun t =>
      if !(ArrayContains hostNames (hostPart t.Target)) then
        some (u.ID, t.Target)
      else
        none))

/-- The target deletions the process performs in the reverse search,
lines 128-161.  When the hostname building panics (a listed container fails
inspection, line 135), the process crashes before line 137 and performs no
deletion at all; otherwise the deletions are those of `reapDeletions` on the
completed hostname list. -/
def reapOrphans (denv : DockerEnv) (kenv : KongEnv) : List (String × String) :=
  match containerHostNames denv with
  | none => []
  | some hostNames => reapDeletions hostNames kenv

/-- Result of one tick of the loop (lines 54-163).  The two aborted variants
are the `break` statements at lines 62 and 67, which leave the `select` case
before the per-container loop and before the reverse search; `panicked` is
the nil-pointer dereference at line 135 crashing the process after the
per-container pass, before any deletion. -/
inductive TickResult where
  | abortedNoListing
  | abortedNoContainers
  | panicked (outcomes : List ContainerOutcome)
  | completed (outcomes : List ContainerOutcome) (deletions : List (String × String))
deriving Repr

/-- Whether the reverse search (OrphanReaper) code, lines 128-161, was
reached on this tick. -/
def TickResult.reaperRan : TickResult → Bool
  | .completed _ _ => true
  | .panicked _ => true
  | _ => false

/-- One tick of the watcher loop, lines 54-163: the filtered listing, the
per-container pass, then the reverse search.  A listing error (line 61) or
an empty listing (line 66) executes `break`, ending the tick body there. -/
def tick (denv : DockerEnv) (kenv : KongEnv) : TickResult :=
  match denv.ContainerListFiltered with
  | .error _ => .abortedNoListing
  | .ok cs =>
    if cs.length = 0 then .abortedNoContainers
    else
      match containerHostNames denv with
      | none => .panicked (processContainers denv.ContainerInspect cs)
      | some hostNames =>
        .completed (processContainers denv.ContainerInspect cs)
          (reapDeletions hostNames kenv)

/-- Lines 29-36 of `main`: whether a global (service- and route-unscoped)
instance of the `kong-internal-db-auth` plugin is present in the listing. -/
def authEnabled (plugins : List Plugin) : Bool :=
  plugins.any (fun p =>
    p.Name == "kong-internal-db-auth" && p.Service == none && p.Route == none)

/-- Result of startup: the watcher always proceeds into the loop; `aborted`
is never produced (a creation failure only logs a warning, line 48). -/
inductive StartupResult where
  | proceeded (createAttempted : Bool) (warned : Bool)
  | aborted
deriving DecidableEq, Repr

/-- Lines 29-51 of `main`: the startup check for the global authentication
plugin.  `createResult` is the outcome of `Plugins.Create` when attempted. -/
def authGuardian (plugins : List Plugin) (createResult : Except Unit Unit) : StartupResult :=
  if authEnabled plugins then
    .proceeded false false
  else
    match createResult with
    | .error _ => .proceeded true true
    | .ok _ => .proceeded true false

/-! ### Concrete inputs used by the claim theorems -/

/-- Labels of a container marked as a service but missing the
`wisdom-oss.service.path` key (Scenario D of the specification). -/
def c4Labels : List (String × String) :=
  [("wisdom-oss.isService", "true"),
   ("wisdom-oss.service.name", "svc"),
   ("wisdom-oss.service.upstream-name", "up")]

/-- A running container with the incomplete `c4Labels` and no healthcheck. -/
def c4Info : ContainerJSON :=
  ⟨⟨"c4-host", c4Labels⟩, ⟨"running", none⟩⟩

/-- Inspection environment returning `c4Info` for every container. -/
def c4Inspect : String → Except Unit ContainerJSON :=
  fun _ => Except.ok c4Info

/-- Labels of a fully configured service container. -/
def fullLabels : List (String × String) :=
  [("wisdom-oss.isService", "true"),
   ("wisdom-oss.service.name", "svc"),
   ("wisdom-oss.service.upstream-name", "up"),
   ("wisdom-oss.service.path", "/api")]

/-- A running, fully labelled container with no healthcheck. -/
def goodInfo : ContainerJSON :=
  ⟨⟨"good-host", fullLabels⟩, ⟨"running", none⟩⟩

/-- Inspection environment in which container "cFail" fails to inspect and
every other container is the fully configured `goodInfo`. -/
def failFirstInspect : String → Except Unit ContainerJSON :=
  fun id => if id = "cFail" then Except.error () else Except.ok goodInfo

/-- Docker environment whose filtered listing succeeds with zero containers
and whose unfiltered listing is empty (every container was deleted). -/
def emptyDockerEnv : DockerEnv :=
  ⟨Except.ok [], Except.ok [], fun _ => Except.error ()⟩

/-- Docker environment whose filtered listing fails. -/
def failingListDockerEnv : DockerEnv :=
  ⟨Except.error (), Except.ok [], fun _ => Except.error ()⟩

/-- Kong environment holding one managed upstream with one stale target. -/
def staleKongEnv : KongEnv :=
  ⟨Except.ok [⟨"up1"⟩], fun _ => Except.ok [⟨"gone-host:8000"⟩]⟩

/-! ### Claim theorems -/

/-- C1: the claim states that a marker=true container missing one of the
three configuration keys (here `wisdom-oss.service.path`) is skipped with no
registration.  In the code the completeness check at lines 94-101 is guarded
by `if err != nil` where `err` is the already-handled ParseBool error, hence
nil: the check is dead, and the container is passed to the register step with
an empty `ServicePath`.  This theorem evaluates the per-container body at
that failing input and shows the registration happens. -/
theorem c1_incomplete_config_is_registered :
    processContainer c4Inspect ⟨"c4"⟩ =
      ContainerOutcome.registered ⟨"svc", "up", ""⟩ c4Info ∧
    outcomeMutation (processContainer c4Inspect ⟨"c4"⟩) = true := by
  constructor <;> rfl

/-- C2: the claim states that when inspecting one container fails, only that
container is skipped and the pass continues with the rest of the listing.
In the code the inspection-error branch executes `break` (line 78), ending
the per-container loop: with a listing of two containers whose first fails to
inspect, the second — fully configured and running — is never processed. -/
theorem c2_inspect_failure_breaks_loop :
    processContainers failFirstInspect [⟨"cFail"⟩, ⟨"cGood"⟩] =
      [ContainerOutcome.inspectFailed "cFail"] ∧
    processContainer failFirstInspect ⟨"cGood"⟩ =
      ContainerOutcome.registered ⟨"svc", "up", "/api"⟩ goodInfo := by
  constructor <;> rfl

/-- C3: the claim states that the OrphanReaper pass runs on every tick, even
when the filtered listing fails or returns zero containers.  In the code both
situations execute `break` (lines 62 and 67), leaving the tick body before
the reverse search: with zero labelled containers and a stale managed target,
the reaper does not run, although running it would have deleted the target. -/
theorem c3_reaper_skipped_on_empty_or_failed_listing :
    (tick emptyDockerEnv staleKongEnv).reaperRan = false ∧
    (tick failingListDockerEnv staleKongEnv).reaperRan = false ∧
    reapOrphans emptyDockerEnv staleKongEnv = [("up1", "gone-host:8000")] := by
  refine ⟨rfl, rfl, rfl⟩

/-- A stopped, fully labelled container. -/
def stoppedInfo : ContainerJSON :=
  ⟨⟨"h1", fullLabels⟩, ⟨"exited", none⟩⟩

/-- A running, fully labelled container whose healthcheck reports unhealthy. -/
def unhealthyInfo : ContainerJSON :=
  ⟨⟨"h2", fullLabels⟩, ⟨"running", some ⟨"unhealthy"⟩⟩⟩

/-- A running, fully labelled container whose healthcheck reports healthy. -/
def healthyInfo : ContainerJSON :=
  ⟨⟨"h3", fullLabels⟩, ⟨"running", some ⟨"healthy"⟩⟩⟩

/-- Helper: on a successfully inspected container whose marker parses to
true, the per-container body ends in the classification of lines 108-125. -/
theorem processContainer_marker_true (inspect : String → Except Unit ContainerJSON)
    (c : ContainerSummary) (info : ContainerJSON)
    (h1 : inspect c.ID = Except.ok info)
    (h2 : ParseBool (lookupLabel info.Config.Labels "wisdom-oss.isService") =
      Except.ok true) :
    processContainer inspect c = classifyAction (extractConfig info.Config.Labels) info := by
  simp [processContainer, h1, h2]

/-- C4: classification of a discovered managed container: not running →
remove (any health); running without healthcheck → register; running and
unhealthy → remove; running with any other health status → register. -/
theorem c4_classification (inspect : String → Except Unit ContainerJSON)
    (c : ContainerSummary) (info : ContainerJSON)
    (h1 : inspect c.ID = Except.ok info)
    (h2 : ParseBool (lookupLabel info.Config.Labels "wisdom-oss.isService") =
      Except.ok true) :
    (info.State.Status ≠ "running" →
      processContainer inspect c =
        ContainerOutcome.removed (extractConfig info.Config.Labels) info) ∧
    (info.State.Status = "running" → info.State.Health = none →
      processContainer inspect c =
        ContainerOutcome.registered (extractConfig info.Config.Labels) info) ∧
    (∀ h, info.State.Status = "running" → info.State.Health = some h →
      h.Status = "unhealthy" →
      processContainer inspect c =
        ContainerOutcome.removed (extractConfig info.Config.Labels) info) ∧
    (∀ h, info.State.Status = "running" → info.State.Health = some h →
      h.Status ≠ "unhealthy" →
      processContainer inspect c =
        ContainerOutcome.registered (extractConfig info.Config.Labels) info) := by
  rw [processContainer_marker_true inspect c info h1 h2]
  refine ⟨?_, ?_, ?_, ?_⟩
  · intro hs
    simp [classifyAction, hs]
  · intro hs hh
    simp [classifyAction, hs, hh]
  · intro h hs hh hu
    simp [classifyAction, hs, hh, hu]
  · intro h hs hh hu
    simp [classifyAction, hs, hh, hu]

/-- Witness for C4: the four rows of the classification table evaluated on
concrete containers. -/
theorem c4_classification_witness :
    processContainer (fun _ => Except.ok stoppedInfo) ⟨"w"⟩ =
      ContainerOutcome.removed (extractConfig stoppedInfo.Config.Labels) stoppedInfo ∧
    processContainer (fun _ => Except.ok goodInfo) ⟨"w"⟩ =
      ContainerOutcome.registered (extractConfig goodInfo.Config.Labels) goodInfo ∧
    processContainer (fun _ => Except.ok unhealthyInfo) ⟨"w"⟩ =
      ContainerOutcome.removed (extractConfig unhealthyInfo.Config.Labels) unhealthyInfo ∧
    processContainer (fun _ => Except.ok healthyInfo) ⟨"w"⟩ =
      ContainerOutcome.registered (extractConfig healthyInfo.Config.Labels) healthyInfo :=
  ⟨(c4_classification _ ⟨"w"⟩ stoppedInfo rfl rfl).1 (by decide),
   (c4_classification _ ⟨"w"⟩ goodInfo rfl rfl).2.1 rfl rfl,
   (c4_classification _ ⟨"w"⟩ unhealthyInfo rfl rfl).2.2.1 ⟨"unhealthy"⟩ rfl rfl rfl,
   (c4_classification _ ⟨"w"⟩ healthyInfo rfl rfl).2.2.2 ⟨"healthy"⟩ rfl rfl (by decide)⟩

/-- Helper: `ArrayContains` decides list membership. -/
theorem arrayContains_iff (arr : List String) (x : String) :
    ArrayContains arr x = true ↔ x ∈ arr := by
  simp [ArrayContains]

/-- Helper: a deletion issued from a completed hostname list comes from a
listed upstream with a successful target listing, a listed target, and a
host portion outside the hostname list. -/
theorem mem_reapDeletions_elim (hostNames : List String) (kenv : KongEnv)
    (us : List Upstream) (p : String × String)
    (hus : kenv.Upstreams = Except.ok us)
    (hp : p ∈ reapDeletions hostNames kenv) :
    ∃ u ∈ us, ∃ ts, kenv.Targets u.ID = Except.ok ts ∧
      ∃ t ∈ ts, p = (u.ID, t.Target) ∧
        hostPart t.Target ∉ hostNames := by
  simp only [reapDeletions, hus, List.mem_flatMap, List.mem_filterMap] at hp
  obtain ⟨u, hu, t, ht, hif⟩ := hp
  refine ⟨u, hu, ?_⟩
  rcases hts : kenv.Targets u.ID with e | ts
  · rw [hts] at ht
    simp at ht
  · rw [hts] at ht
    refine ⟨ts, rfl, t, ht, ?_⟩
    by_cases hc : ArrayContains hostNames (hostPart t.Target)
    · simp [hc] at hif
    · simp [hc] at hif
      rw [arrayContains_iff] at hc
      exact ⟨hif.symm, hc⟩

/-- Helper: a listed target of a listed upstream whose host portion falls
outside the completed hostname list is deleted. -/
theorem mem_reapDeletions_intro (hostNames : List String) (kenv : KongEnv)
    (us : List Upstream) (u : Upstream) (ts : List Target) (t : Target)
    (hus : kenv.Upstreams = Except.ok us) (hu : u ∈ us)
    (hts : kenv.Targets u.ID = Except.ok ts) (ht : t ∈ ts)
    (hnot : hostPart t.Target ∉ hostNames) :
    (u.ID, t.Target) ∈ reapDeletions hostNames kenv := by
  simp only [reapDeletions, hus, List.mem_flatMap, List.mem_filterMap]
  refine ⟨u, hu, t, ?_, ?_⟩
  · rw [hts]
    exact ht
  · have hc : ArrayContains hostNames (hostPart t.Target) = false := by
      rw [Bool.eq_false_iff]
      intro hcontra
      exact hnot ((arrayContains_iff _ _).mp hcontra)
    simp [hc]

/-- Helper: if some listed container fails inspection, the hostname
building panics. -/
theorem buildHostNames_none_of_error (inspect : String → Except Unit ContainerJSON)
    (cs : List ContainerSummary) (c : ContainerSummary)
    (hc : c ∈ cs) (he : inspect c.ID = Except.error ()) :
    buildHostNames inspect cs = none := by
  induction cs with
  | nil => cases hc
  | cons hd tl ih =>
    rcases List.mem_cons.mp hc with rfl | hmem
    · simp [buildHostNames, he]
    · rcases hh : inspect hd.ID with e | info
      · simp [buildHostNames, hh]
      · simp [buildHostNames, hh, ih hmem]

/-- Helper: when every listed container inspects successfully, the hostname
building completes, and the resulting list holds exactly the inspected
hostnames. -/
theorem buildHostNames_ok (inspect : String → Except Unit ContainerJSON)
    (cs : List ContainerSummary)
    (h : ∀ c ∈ cs, ∃ info, inspect c.ID = Except.ok info) :
    ∃ hs, buildHostNames inspect cs = some hs ∧
      (∀ c ∈ cs, ∃ info, inspect c.ID = Except.ok info ∧
        info.Config.Hostname ∈ hs) ∧
      (∀ x ∈ hs, ∃ c ∈ cs, ∃ info, inspect c.ID = Except.ok info ∧
        info.Config.Hostname = x) := by
  induction cs with
  | nil => exact ⟨[], rfl, by simp, by simp⟩
  | cons hd tl ih =>
    obtain ⟨info, hinfo⟩ := h hd (List.mem_cons_self hd tl)
    obtain ⟨hs, hhs, hfwd, hbwd⟩ := ih (fun c hc => h c (List.mem_cons_of_mem hd hc))
    refine ⟨info.Config.Hostname :: hs, ?_, ?_, ?_⟩
    · simp [buildHostNames, hinfo, hhs]
    · intro c hc
      rcases List.mem_cons.mp hc with rfl | hmem
      · exact ⟨info, hinfo, List.mem_cons_self _ _⟩
      · obtain ⟨i2, hi2, hm⟩ := hfwd c hmem
        exact ⟨i2, hi2, List.mem_cons_of_mem _ hm⟩
    · intro x hx
      rcases List.mem_cons.mp hx with rfl | hmem
      · exact ⟨hd, List.mem_cons_self _ _, info, hinfo, rfl⟩
      · obtain ⟨c, hc, i2, hi2, hex⟩ := hbwd x hmem
        exact ⟨c, List.mem_cons_of_mem _ hc, i2, hi2, hex⟩

/-- C5: on a tick where the unfiltered listing and every inspection succeed
(so the hostname set of every container known to the runtime is actually
built), a managed target of a managed upstream is deleted if and only if the
host portion of its target string is not among those hostnames. -/
theorem c5_reap_iff (denv : DockerEnv) (kenv : KongEnv)
    (cs : List ContainerSummary) (us : List Upstream) (u : Upstream)
    (ts : List Target) (t : Target)
    (hcs : denv.ContainerListAll = Except.ok cs)
    (hinsp : ∀ c ∈ cs, ∃ info, denv.ContainerInspect c.ID = Except.ok info)
    (hus : kenv.Upstreams = Except.ok us) (hu : u ∈ us)
    (hts : kenv.Targets u.ID = Except.ok ts) (ht : t ∈ ts) :
    ∃ hostNames, containerHostNames denv = some hostNames ∧
      (∀ c ∈ cs, ∃ info, denv.ContainerInspect c.ID = Except.ok info ∧
        info.Config.Hostname ∈ hostNames) ∧
      (∀ x ∈ hostNames, ∃ c ∈ cs, ∃ info,
        denv.ContainerInspect c.ID = Except.ok info ∧
        info.Config.Hostname = x) ∧
      ((u.ID, t.Target) ∈ reapOrphans denv kenv ↔
        hostPart t.Target ∉ hostNames) := by
  obtain ⟨hs, hhs, hfwd, hbwd⟩ := buildHostNames_ok denv.ContainerInspect cs hinsp
  have hch : containerHostNames denv = some hs := by
    unfold containerHostNames
    rw [hcs]
    exact hhs
  have hro : reapOrphans denv kenv = reapDeletions hs kenv := by
    unfold reapOrphans
    rw [hch]
  refine ⟨hs, hch, hfwd, hbwd, ?_⟩
  rw [hro]
  constructor
  · intro hp
    obtain ⟨u', _, ts', hts', t', _, hpair, hnot⟩ :=
      mem_reapDeletions_elim hs kenv us (u.ID, t.Target) hus hp
    have htarget : t.Target = t'.Target := congrArg Prod.snd hpair
    rw [htarget]
    exact hnot
  · exact mem_reapDeletions_intro hs kenv us u ts t hus hu hts ht

/-- Docker environment listing the single container "cA", which inspects
successfully as `goodInfo`. -/
def c5Docker : DockerEnv :=
  ⟨Except.ok [⟨"cA"⟩], Except.ok [⟨"cA"⟩], fun _ => Except.ok goodInfo⟩

/-- Witness for C5: with one inspectable container, the stale target of
`staleKongEnv` is deleted exactly because its host is not that container's
hostname. -/
theorem c5_reap_iff_witness :
    ∃ hostNames, containerHostNames c5Docker = some hostNames ∧
      (∀ c ∈ [ContainerSummary.mk "cA"], ∃ info,
        c5Docker.ContainerInspect c.ID = Except.ok info ∧
        info.Config.Hostname ∈ hostNames) ∧
      (∀ x ∈ hostNames, ∃ c ∈ [ContainerSummary.mk "cA"], ∃ info,
        c5Docker.ContainerInspect c.ID = Except.ok info ∧
        info.Config.Hostname = x) ∧
      (("up1", "gone-host:8000") ∈ reapOrphans c5Docker staleKongEnv ↔
        hostPart "gone-host:8000" ∉ hostNames) :=
  c5_reap_iff c5Docker staleKongEnv [⟨"cA"⟩] [⟨"up1"⟩] ⟨"up1"⟩
    [⟨"gone-host:8000"⟩] ⟨"gone-host:8000"⟩ rfl
    (fun c _ => ⟨goodInfo, rfl⟩) rfl (by simp) rfl (by simp)

/-- The global (unscoped) authentication plugin instance. -/
def globalAuthPlugin : Plugin :=
  ⟨"kong-internal-db-auth", none, none⟩

/-- C6: at startup the global authentication plugin is created only when no
global (service- and route-unscoped) instance exists in the plugin listing,
and a creation failure yields a warning and continued operation, never an
abort. -/
theorem c6_auth_guardian (plugins : List Plugin) (r : Except Unit Unit) :
    ((∃ p ∈ plugins, p.Name = "kong-internal-db-auth" ∧
        p.Service = none ∧ p.Route = none) →
      authGuardian plugins r = StartupResult.proceeded false false) ∧
    authGuardian plugins r ≠ StartupResult.aborted ∧
    (¬(∃ p ∈ plugins, p.Name = "kong-internal-db-auth" ∧
        p.Service = none ∧ p.Route = none) →
      r = Except.error () →
      authGuardian plugins r = StartupResult.proceeded true true) := by
  have hiff : authEnabled plugins = true ↔
      ∃ p ∈ plugins, p.Name = "kong-internal-db-auth" ∧
        p.Service = none ∧ p.Route = none := by
    simp [authEnabled, List.any_eq_true, and_assoc]
  refine ⟨?_, ?_, ?_⟩
  · intro hex
    simp [authGuardian, hiff.mpr hex]
  · unfold authGuardian
    split
    · simp
    · cases r <;> simp
  · intro hnex hr
    have hfalse : authEnabled plugins = false := by
      rw [Bool.eq_false_iff]
      intro h
      exact hnex (hiff.mp h)
    simp [authGuardian, hfalse, hr]

/-- Witness for C6: no creation when the instance exists; warn-and-continue
when creation fails on an empty listing. -/
theorem c6_auth_guardian_witness :
    authGuardian [globalAuthPlugin] (Except.ok ()) =
      StartupResult.proceeded false false ∧
    authGuardian [] (Except.error ()) ≠ StartupResult.aborted ∧
    authGuardian [] (Except.error ()) = StartupResult.proceeded true true :=
  ⟨(c6_auth_guardian [globalAuthPlugin] (Except.ok ())).1
      ⟨globalAuthPlugin, by simp, rfl, rfl, rfl⟩,
   (c6_auth_guardian [] (Except.error ())).2.1,
   (c6_auth_guardian [] (Except.error ())).2.2 (by simp) rfl⟩

/-- C7: a failed upstream listing yields no deletion at all, and a failed
target listing for an upstream yields no deletion under that upstream; in
both cases the tick function stays total (the failure is non-fatal). -/
theorem c7_listing_failure (denv : DockerEnv) (kenv : KongEnv) :
    (kenv.Upstreams = Except.error () → reapOrphans denv kenv = []) ∧
    (∀ us u, kenv.Upstreams = Except.ok us → u ∈ us →
      kenv.Targets u.ID = Except.error () →
      ∀ s, (u.ID, s) ∉ reapOrphans denv kenv) := by
  constructor
  · intro h
    rcases hh : containerHostNames denv with _ | hs
    · simp [reapOrphans, hh]
    · simp [reapOrphans, hh, reapDeletions, h]
  · intro us u hus hu hterr s hmem
    unfold reapOrphans at hmem
    rcases hh : containerHostNames denv with _ | hs
    · rw [hh] at hmem
      simp at hmem
    · rw [hh] at hmem
      have hmem2 : (u.ID, s) ∈ reapDeletions hs kenv := hmem
      obtain ⟨u', hu', ts', hts', t', ht', hpair, hnot⟩ :=
        mem_reapDeletions_elim hs kenv us (u.ID, s) hus hmem2
      have hid : u.ID = u'.ID := congrArg Prod.fst hpair
      rw [← hid, hterr] at hts'
      exact Except.noConfusion hts'

/-- Kong environment whose upstream listing fails. -/
def errUpstreamKong : KongEnv :=
  ⟨Except.error (), fun _ => Except.ok []⟩

/-- Kong environment with one upstream whose target listing fails. -/
def errTargetsKong : KongEnv :=
  ⟨Except.ok [⟨"up1"⟩], fun _ => Except.error ()⟩

/-- Witness for C7: both listing failures issue no deletion. -/
theorem c7_listing_failure_witness :
    reapOrphans emptyDockerEnv errUpstreamKong = [] ∧
    ("up1", "gone-host:8000") ∉ reapOrphans emptyDockerEnv errTargetsKong :=
  ⟨(c7_listing_failure emptyDockerEnv errUpstreamKong).1 rfl,
   (c7_listing_failure emptyDockerEnv errTargetsKong).2 [⟨"up1"⟩] ⟨"up1"⟩
      rfl (by simp) rfl "gone-host:8000"⟩

/-- C8: a container whose marker label does not parse as a boolean, or
parses to false, is skipped with no gateway mutation, and the loop continues
with the remaining containers of the listing. -/
theorem c8_marker_skip (inspect : String → Except Unit ContainerJSON)
    (c : ContainerSummary) (rest : List ContainerSummary) (info : ContainerJSON)
    (h1 : inspect c.ID = Except.ok info) :
    (ParseBool (lookupLabel info.Config.Labels "wisdom-oss.isService") =
        Except.error () →
      processContainer inspect c = ContainerOutcome.skippedUnparsableMarker c.ID ∧
      outcomeMutation (processContainer inspect c) = false ∧
      processContainers inspect (c :: rest) =
        ContainerOutcome.skippedUnparsableMarker c.ID ::
          processContainers inspect rest) ∧
    (ParseBool (lookupLabel info.Config.Labels "wisdom-oss.isService") =
        Except.ok false →
      processContainer inspect c = ContainerOutcome.skippedNotService c.ID ∧
      outcomeMutation (processContainer inspect c) = false ∧
      processContainers inspect (c :: rest) =
        ContainerOutcome.skippedNotService c.ID ::
          processContainers inspect rest) := by
  constructor
  · intro h2
    have hpc : processContainer inspect c =
        ContainerOutcome.skippedUnparsableMarker c.ID := by
      simp [processContainer, h1, h2]
    exact ⟨hpc, by rw [hpc]; rfl, by simp [processContainers, hpc]⟩
  · intro h2
    have hpc : processContainer inspect c =
        ContainerOutcome.skippedNotService c.ID := by
      simp [processContainer, h1, h2]
    exact ⟨hpc, by rw [hpc]; rfl, by simp [processContainers, hpc]⟩

/-- A running container whose marker label is not a boolean. -/
def unparsableInfo : ContainerJSON :=
  ⟨⟨"h4", [("wisdom-oss.isService", "yes")]⟩, ⟨"running", none⟩⟩

/-- A running container whose marker label is "false". -/
def notServiceInfo : ContainerJSON :=
  ⟨⟨"h5", [("wisdom-oss.isService", "false")]⟩, ⟨"running", none⟩⟩

/-- Witness for C8: the two skip behaviours on concrete containers. -/
theorem c8_marker_skip_witness :
    (processContainer (fun _ => Except.ok unparsableInfo) ⟨"w1"⟩ =
        ContainerOutcome.skippedUnparsableMarker "w1" ∧
      outcomeMutation (processContainer (fun _ => Except.ok unparsableInfo) ⟨"w1"⟩) = false ∧
      processContainers (fun _ => Except.ok unparsableInfo) [⟨"w1"⟩, ⟨"w2"⟩] =
        ContainerOutcome.skippedUnparsableMarker "w1" ::
          processContainers (fun _ => Except.ok unparsableInfo) [⟨"w2"⟩]) ∧
    (processContainer (fun _ => Except.ok notServiceInfo) ⟨"w1"⟩ =
        ContainerOutcome.skippedNotService "w1" ∧
      outcomeMutation (processContainer (fun _ => Except.ok notServiceInfo) ⟨"w1"⟩) = false ∧
      processContainers (fun _ => Except.ok notServiceInfo) [⟨"w1"⟩, ⟨"w2"⟩] =
        ContainerOutcome.skippedNotService "w1" ::
          processContainers (fun _ => Except.ok notServiceInfo) [⟨"w2"⟩]) :=
  ⟨(c8_marker_skip (fun _ => Except.ok unparsableInfo) ⟨"w1"⟩ [⟨"w2"⟩]
      unparsableInfo rfl).1 rfl,
   (c8_marker_skip (fun _ => Except.ok notServiceInfo) ⟨"w1"⟩ [⟨"w2"⟩]
      notServiceInfo rfl).2 rfl⟩

/-- Docker environment listing one container "cX" that fails inspection. -/
def c9Docker : DockerEnv :=
  ⟨Except.ok [⟨"cX"⟩], Except.ok [⟨"cX"⟩], fun _ => Except.error ()⟩

/-- Kong environment holding the managed target of container "cX". -/
def c9Kong : KongEnv :=
  ⟨Except.ok [⟨"up1"⟩], fun _ => Except.ok [⟨"cx-host:80"⟩]⟩

/-- C9 counterexample: the claim asserts that a failed inspection during
hostname building appends the zero value's empty hostname and that the
failing container's target is then deleted.  Neither happens: the zero-valued
`types.ContainerJSON` has a nil `Config` pointer, so line 135 panics and the
process crashes — on this input no hostname list is completed and no target
(in particular not "cx-host:80") is deleted. -/
theorem c9_counterexample :
    containerHostNames c9Docker = none ∧
    reapOrphans c9Docker c9Kong = [] ∧
    ("up1", "cx-host:80") ∉ reapOrphans c9Docker c9Kong :=
  ⟨rfl, rfl, by decide⟩

/-- C9 (amended): in the reverse search, when inspecting a listed container
fails, the error is silently discarded, but reading the hostname through the
zero value's nil `Config` pointer panics and crashes the process: the
hostname set is never completed and no target at all is deleted on this
pass. -/
theorem c9_inspect_failure_panics (denv : DockerEnv) (kenv : KongEnv)
    (cs : List ContainerSummary) (c : ContainerSummary)
    (hcs : denv.ContainerListAll = Except.ok cs)
    (hc : c ∈ cs) (he : denv.ContainerInspect c.ID = Except.error ()) :
    containerHostNames denv = none ∧
    reapOrphans denv kenv = [] ∧
    ∀ p, p ∉ reapOrphans denv kenv := by
  have hn : containerHostNames denv = none := by
    unfold containerHostNames
    rw [hcs]
    exact buildHostNames_none_of_error denv.ContainerInspect cs c hc he
  have hr : reapOrphans denv kenv = [] := by
    unfold reapOrphans
    rw [hn]
  refine ⟨hn, hr, fun p hp => ?_⟩
  rw [hr] at hp
  simp at hp

/-- Witness for the amended C9: container "cX" exists but fails inspection;
the pass panics and deletes nothing. -/
theorem c9_inspect_failure_panics_witness :
    containerHostNames c9Docker = none ∧
    reapOrphans c9Docker c9Kong = [] ∧
    ∀ p, p ∉ reapOrphans c9Docker c9Kong :=
  c9_inspect_failure_panics c9Docker c9Kong [⟨"cX"⟩] ⟨"cX"⟩ rfl (by simp) rfl

/-- C10: the marker label is interpreted by `strconv.ParseBool`: each of the
six true spellings proceeds to classification as a managed service, each of
the six false spellings skips the container as not a service, and every
other value skips it as unparsable. -/
theorem c10_parsebool_marker (inspect : String → Except Unit ContainerJSON)
    (c : ContainerSummary) (info : ContainerJSON) (v : String)
    (h1 : inspect c.ID = Except.ok info)
    (hv : lookupLabel info.Config.Labels "wisdom-oss.isService" = v) :
    ((v = "1" ∨ v = "t" ∨ v = "T" ∨ v = "true" ∨ v = "TRUE" ∨ v = "True") →
      processContainer inspect c =
        classifyAction (extractConfig info.Config.Labels) info) ∧
    ((v = "0" ∨ v = "f" ∨ v = "F" ∨ v = "false" ∨ v = "FALSE" ∨ v = "False") →
      processContainer inspect c = ContainerOutcome.skippedNotService c.ID) ∧
    (¬(v = "1" ∨ v = "t" ∨ v = "T" ∨ v = "true" ∨ v = "TRUE" ∨ v = "True") →
      ¬(v = "0" ∨ v = "f" ∨ v = "F" ∨ v = "false" ∨ v = "FALSE" ∨ v = "False") →
      processContainer inspect c =
        ContainerOutcome.skippedUnparsableMarker c.ID) := by
  refine ⟨?_, ?_, ?_⟩
  · intro hd
    have hp : ParseBool v = Except.ok true := by
      unfold ParseBool
      rw [if_pos hd]
    exact processContainer_marker_true inspect c info h1 (by rw [hv]; exact hp)
  · intro hd
    have hn1 : ¬(v = "1" ∨ v = "t" ∨ v = "T" ∨ v = "true" ∨ v = "TRUE" ∨ v = "True") := by
      rcases hd with rfl | rfl | rfl | rfl | rfl | rfl <;> decide
    have hp : ParseBool v = Except.ok false := by
      unfold ParseBool
      rw [if_neg hn1, if_pos hd]
    have hpb : ParseBool (lookupLabel info.Config.Labels "wisdom-oss.isService") =
        Except.ok false := by
      rw [hv]
      exact hp
    simp [processContainer, h1, hpb]
  · intro hn1 hn2
    have hp : ParseBool v = Except.error () := by
      unfold ParseBool
      rw [if_neg hn1, if_neg hn2]
    have hpb : ParseBool (lookupLabel info.Config.Labels "wisdom-oss.isService") =
        Except.error () := by
      rw [hv]
      exact hp
    simp [processContainer, h1, hpb]

/-- A running container with marker "T" and full configuration. -/
def markerTInfo : ContainerJSON :=
  ⟨⟨"h6", [("wisdom-oss.isService", "T"),
           ("wisdom-oss.service.name", "svc"),
           ("wisdom-oss.service.upstream-name", "up"),
           ("wisdom-oss.service.path", "/api")]⟩, ⟨"running", none⟩⟩

/-- A running container with marker "0". -/
def markerZeroInfo : ContainerJSON :=
  ⟨⟨"h7", [("wisdom-oss.isService", "0")]⟩, ⟨"running", none⟩⟩

/-- A running container with marker "maybe". -/
def markerMaybeInfo : ContainerJSON :=
  ⟨⟨"h8", [("wisdom-oss.isService", "maybe")]⟩, ⟨"running", none⟩⟩

/-- Witness for C10: "T" is managed, "0" is not a service, "maybe" is
unparsable. -/
theorem c10_parsebool_marker_witness :
    processContainer (fun _ => Except.ok markerTInfo) ⟨"w"⟩ =
      classifyAction (extractConfig markerTInfo.Config.Labels) markerTInfo ∧
    processContainer (fun _ => Except.ok markerZeroInfo) ⟨"w"⟩ =
      ContainerOutcome.skippedNotService "w" ∧
    processContainer (fun _ => Except.ok markerMaybeInfo) ⟨"w"⟩ =
      ContainerOutcome.skippedUnparsableMarker "w" :=
  ⟨(c10_parsebool_marker _ ⟨"w"⟩ markerTInfo "T" rfl rfl).1
      (Or.inr (Or.inr (Or.inl rfl))),
   (c10_parsebool_marker _ ⟨"w"⟩ markerZeroInfo "0" rfl rfl).2.1 (Or.inl rfl),
   (c10_parsebool_marker _ ⟨"w"⟩ markerMaybeInfo "maybe" rfl rfl).2.2
      (by decide) (by decide)⟩

end Watchdog
